import Mathlib

/-!
Verification of `scripts/visualize.py` (JMH benchmark visualization).

The script is embedded shallowly:
* JSON doubles are modelled as rationals (`ℚ`); the arithmetic performed by the
  script (subtraction, division, scaling by 1000) is exact on the values the
  claims mention, so `ℚ` is a faithful model of the formulas involved.
* Python `dict` objects are modelled as association lists with unique keys,
  built by `dictSet` (in-place overwrite, insertion order preserved — the
  semantics of `d[k] = v`) and read by `dictGet?` / `dictGetD`
  (the semantics of `d[k]` on a present key resp. `d.get(k, default)`).
* A Python exception that would abort the run (`ZeroDivisionError` in the
  annotation arithmetic) is modelled with `Except String`; rational division
  by a nonzero denominator agrees with real division, and the zero case is
  mapped to the error constructor instead of Lean's `x / 0 = 0` convention.
* Writing an image file is modelled by returning the chart data that would be
  rendered into it; `main` collects the artifact file names in order.
-/

/-! ## Python-style primitive helpers -/

/-- `charsStartWith needle hay` : does `hay` start with `needle`? -/
def charsStartWith : List Char → List Char → Bool
  | [], _ => true
  | _ :: _, [] => false
  | c :: cs, d :: ds => c = d && charsStartWith cs ds

/-- `charsContain needle hay` : does `needle` occur contiguously in `hay`?
(The semantics of Python's `needle in hay` on strings.) -/
def charsContain (needle hay : List Char) : Bool :=
  match hay with
  | [] => charsStartWith needle []
  | _ :: rest => charsStartWith needle hay || charsContain needle rest

/-- Python `needle in hay` for strings. -/
def containsSub (needle hay : String) : Bool :=
  charsContain needle.toList hay.toList

/-- Helper for `pySplitDot`: accumulates the current component in reverse. -/
def splitDotAux : List Char → List Char → List String
  | [], acc => [String.mk acc.reverse]
  | c :: cs, acc =>
      if c = '.' then String.mk acc.reverse :: splitDotAux cs []
      else splitDotAux cs (c :: acc)

/-- Python `s.split(".")` (always returns a nonempty list). -/
def pySplitDot (s : String) : List String :=
  splitDotAux s.toList []

/-- Python `d[k] = v` on a dict represented as an association list:
overwrite in place if the key is present, otherwise append. -/
def dictSet {K V : Type} [DecidableEq K] : List (K × V) → K → V → List (K × V)
  | [], k, v => [(k, v)]
  | (k', v') :: rest, k, v =>
      if k' = k then (k, v) :: rest else (k', v') :: dictSet rest k v

/-- Python `k in d` / `d[k]` lookup, returning `none` when absent. -/
def dictGet? {K V : Type} [DecidableEq K] : List (K × V) → K → Option V
  | [], _ => none
  | (k', v') :: rest, k => if k' = k then some v' else dictGet? rest k

/-- Python `d.get(k, default)`. -/
def dictGetD {K V : Type} [DecidableEq K] (m : List (K × V)) (k : K) (d : V) : V :=
  (dictGet? m k).getD d

/-- Python `max(list)`; the empty case raises in Python and is unreachable at
every use site below (guarded by a length check), so it defaults to 0. -/
def pymax : List ℚ → ℚ
  | [] => 0
  | x :: xs => xs.foldl max x

/-! ## Data model (§3 of the spec, fields read by `visualize.py`) -/

/-- The two benchmark parameters the script reads.  In the source they are
string-valued (`b["params"]["laneCount"]` is passed through `int(...)`);
the integer is modelled already parsed. -/
structure Params where
  laneCount : ℤ
  strategyName : String
deriving DecidableEq

/-- `b["primaryMetric"]`: the scalar `score` and the `scorePercentiles`
mapping from percentile label to value. -/
structure PrimaryMetric where
  score : ℚ
  scorePercentiles : List (String × ℚ)
deriving DecidableEq

/-- One JMH benchmark record, restricted to the fields `visualize.py` reads. -/
structure BenchmarkRecord where
  benchmark : String
  params : Params
  primaryMetric : PrimaryMetric
deriving DecidableEq

/-- The derived `{p50, p95, p99}` value object. -/
structure PercentileSet where
  p50 : ℚ
  p95 : ℚ
  p99 : ℚ
deriving DecidableEq

/-- Default `PercentileSet` used as the (unreachable) fallback when indexing
the grouped dict at one of its own keys. -/
def pzero : PercentileSet := { p50 := 0, p95 := 0, p99 := 0 }

/-! ## `extract_percentiles` (visualize.py lines 39–46) -/

/-- `extract_percentiles`: read `primaryMetric.scorePercentiles` and take the
three fixed keys with `percentiles.get(key, 0)`. -/
def extract_percentiles (b : BenchmarkRecord) : PercentileSet :=
  let percentiles := b.primaryMetric.scorePercentiles
  { p50 := dictGetD percentiles "50.0" 0
    p95 := dictGetD percentiles "95.0" 0
    p99 := dictGetD percentiles "99.0" 0 }

/-! ## HOL-Impact report (visualize.py lines 49–115) -/

/-- The filter on line 56–59: records whose benchmark id contains the marker. -/
def hol_data (benchmarks : List BenchmarkRecord) : List BenchmarkRecord :=
  benchmarks.filter (fun b => containsSub "HolImpactBenchmark" b.benchmark)

/-- Lines 66–70: group by lane count into a dict (`by_lane[lane_count] =
percentiles`, so a duplicate lane count overwrites — last seen wins). -/
def by_lane (hol : List BenchmarkRecord) : List (ℤ × PercentileSet) :=
  hol.foldl (fun m b => dictSet m b.params.laneCount (extract_percentiles b)) []

/-- Line 73: `sorted(by_lane.keys())`. -/
def sortedKeys {α : Type} (m : List (ℤ × α)) : List ℤ :=
  List.insertionSort (fun a b => a ≤ b) (m.map Prod.fst)

/-- Lines 74–76: the percentile series in sorted lane order. -/
def series_of (m : List (ℤ × PercentileSet)) (f : PercentileSet → ℚ) : List ℚ :=
  (sortedKeys m).map (fun lc => f (dictGetD m lc pzero))

/-- Lines 96–109: the p95-improvement annotation.  The source computes
`(p95_baseline - p95_laned) / p95_baseline * 100` with no zero guard; a zero
`p95_baseline` raises `ZeroDivisionError`, modelled as `Except.error`. -/
def hol_improvement (lane_counts : List ℤ) (p95_values : List ℚ) :
    Except String (Option ℚ) :=
  if 2 ≤ lane_counts.length then
    let p95_baseline := p95_values.getD 0 0
    let p95_laned := p95_values.getD 1 0
    if p95_baseline = 0 then Except.error "ZeroDivisionError"
    else Except.ok (some ((p95_baseline - p95_laned) / p95_baseline * 100))
  else Except.ok none

/-- The data of the rendered HOL-Impact chart: the sorted lane counts, the
three percentile series, and the rendered annotation values (`callouts`). -/
structure HolChart where
  lanes : List ℤ
  p50s : List ℚ
  p95s : List ℚ
  p99s : List ℚ
  callouts : List ℚ
deriving DecidableEq

/-- `plot_hol_impact`: soft-skip (`Except.ok none`) when the filter is empty,
otherwise group, sort, build the series, compute the annotation (which can
raise), and save one artifact. -/
def plot_hol_impact (benchmarks : List BenchmarkRecord) :
    Except String (Option HolChart) :=
  let data := hol_data benchmarks
  if data = [] then Except.ok none
  else
    let m := by_lane data
    let lane_counts := sortedKeys m
    let p95_values := series_of m (fun p => p.p95)
    match hol_improvement lane_counts p95_values with
    | Except.error e => Except.error e
    | Except.ok ann =>
        Except.ok (some
          { lanes := lane_counts
            p50s := series_of m (fun p => p.p50)
            p95s := p95_values
            p99s := series_of m (fun p => p.p99)
            callouts := ann.toList })

/-! ## Strategy-Comparison report (visualize.py lines 118–178) -/

/-- The filter on lines 125–128. -/
def strategy_data (benchmarks : List BenchmarkRecord) : List BenchmarkRecord :=
  benchmarks.filter (fun b => containsSub "StrategyComparisonBenchmark" b.benchmark)

/-- Lines 136–143: insert one record into the nested dict
`by_lane_strategy[lane_count][strategy] = percentiles` (the lane-count key is
created first when absent). -/
def insertLaneStrategy (m : List (ℤ × List (String × PercentileSet)))
    (b : BenchmarkRecord) : List (ℤ × List (String × PercentileSet)) :=
  match dictGet? m b.params.laneCount with
  | none =>
      dictSet m b.params.laneCount
        [(b.params.strategyName, extract_percentiles b)]
  | some inner =>
      dictSet m b.params.laneCount
        (dictSet inner b.params.strategyName (extract_percentiles b))

/-- Lines 134–143: the grouping by (laneCount, strategyName). -/
def by_lane_strategy (data : List BenchmarkRecord) :
    List (ℤ × List (String × PercentileSet)) :=
  data.foldl insertLaneStrategy []

/-- Line 147: the fixed series of recognized strategies. -/
def strategies : List String := ["ROUND_ROBIN", "THREAD_AFFINITY", "LEAST_USED"]

/-- Two-level dict lookup: the inner percentile set stored for
`(lane count, strategy)`, when both keys are present. -/
def dictGet2 (m : List (ℤ × List (String × PercentileSet))) (lc : ℤ)
    (s : String) : Option PercentileSet :=
  match dictGet? m lc with
  | none => none
  | some inner => dictGet? inner s

/-- Lines 157–160: `by_lane_strategy[lc].get(strategy, {}).get("p95", 0)`.
(`lc` ranges over the dict's own keys in the source, so the outer direct
index never fails; the `none` branch is the unreachable total-function
fallback.) -/
def bar_p95 (m : List (ℤ × List (String × PercentileSet))) (lc : ℤ)
    (s : String) : ℚ :=
  match dictGet2 m lc s with
  | none => 0
  | some p => p.p95

/-- The data of the rendered Strategy-Comparison chart.  The builder renders
bars, labels, legend and title only: it computes no derived annotation, so
`callouts` is always empty. -/
structure StratChart where
  lanes : List ℤ
  heights : List (List ℚ)
  callouts : List ℚ
deriving DecidableEq

/-- `plot_strategy_comparison`: soft-skip on an empty filter, otherwise group
and draw one bar per recognized strategy per sorted lane count. -/
def plot_strategy_comparison (benchmarks : List BenchmarkRecord) :
    Option StratChart :=
  let data := strategy_data benchmarks
  if data = [] then none
  else
    let m := by_lane_strategy data
    let lane_counts := sortedKeys m
    some
      { lanes := lane_counts
        heights := strategies.map (fun s => lane_counts.map (fun lc => bar_p95 m lc s))
        callouts := [] }

/-! ## Selection-Overhead report (visualize.py lines 181–254) -/

/-- The filter on lines 188–191. -/
def overhead_data (benchmarks : List BenchmarkRecord) : List BenchmarkRecord :=
  benchmarks.filter (fun b => containsSub "SelectionOverheadBenchmark" b.benchmark)

/-- Line 200: `b["benchmark"].split(".")[-1]`. -/
def method_of (b : BenchmarkRecord) : String :=
  (pySplitDot b.benchmark).getLastD ""

/-- Lines 203–210: substring classification of a method name into one of the
four fixed buckets (first match wins; no match means the record is dropped). -/
def classify (method : String) : Option String :=
  if containsSub "baseline" method then some "Baseline"
  else if containsSub "roundRobin" method then some "RoundRobin"
  else if containsSub "threadAffinity" method then some "ThreadAffinity"
  else if containsSub "leastUsed" method then some "LeastUsed"
  else none

/-- Lines 198–210: the `overheads` dict; the stored value is
`b["primaryMetric"]["score"] * 1000` (ms → μs). -/
def overheads (data : List BenchmarkRecord) : List (String × ℚ) :=
  data.foldl
    (fun m b =>
      match classify (method_of b) with
      | some label => dictSet m label (b.primaryMetric.score * 1000)
      | none => m) []

/-- The values of the non-`Baseline` buckets (line 239's generator). -/
def nonBaselineValues (ov : List (String × ℚ)) : List ℚ :=
  (ov.filter (fun kv => kv.1 ≠ "Baseline")).map Prod.snd

/-- Lines 237–248: the overhead callout `(overhead, overhead_pct)`.  Computed
only when at least two buckets exist and `Baseline` is positive; the division
by `max_strategy` has no zero guard in the source, so a zero maximum raises
`ZeroDivisionError` (modelled as `Except.error`). -/
def overhead_calc (ov : List (String × ℚ)) : Except String (Option (ℚ × ℚ)) :=
  if 2 ≤ ov.length then
    let baseline := dictGetD ov "Baseline" 0
    let max_strategy := pymax (nonBaselineValues ov)
    if 0 < baseline then
      if max_strategy = 0 then Except.error "ZeroDivisionError"
      else
        let overhead := max_strategy - baseline
        Except.ok (some (overhead, overhead / max_strategy * 100))
    else Except.ok none
  else Except.ok none

/-- The data of the rendered Selection-Overhead chart: bucket labels, bar
values (each also rendered as a per-bar value label, lines 231–234), and the
conditional overhead callout. -/
structure SelChart where
  labels : List String
  values : List ℚ
  overheadCallout : Option (ℚ × ℚ)
deriving DecidableEq

/-- `plot_selection_overhead`: soft-skip on an empty filter (line 193) and on
an empty `overheads` dict (line 212), otherwise draw the bars and compute the
conditional callout. -/
def plot_selection_overhead (benchmarks : List BenchmarkRecord) :
    Except String (Option SelChart) :=
  let data := overhead_data benchmarks
  if data = [] then Except.ok none
  else
    let ov := overheads data
    if ov = [] then Except.ok none
    else
      match overhead_calc ov with
      | Except.error e => Except.error e
      | Except.ok ann =>
          Except.ok (some
            { labels := ov.map Prod.fst
              values := ov.map Prod.snd
              overheadCallout := ann })

/-! ## Orchestrator (`main`, visualize.py lines 257–283) -/

def holArtifactName : String := "hol_impact.png"

def stratArtifactName : String := "strategy_comparison.png"

def selArtifactName : String := "selection_overhead.png"

/-- Lines 274–276: run the three reports in order.  Returns the artifact
names written so far and the uncaught exception, if any, that aborted the
sequence (artifacts written before the exception persist). -/
def mainRun (benchmarks : List BenchmarkRecord) : List String × Option String :=
  match plot_hol_impact benchmarks with
  | Except.error e => ([], some e)
  | Except.ok h =>
      let holArts := match h with
        | some _ => [holArtifactName]
        | none => []
      let stratArts := match plot_strategy_comparison benchmarks with
        | some _ => [stratArtifactName]
        | none => []
      match plot_selection_overhead benchmarks with
      | Except.error e => (holArts ++ stratArts, some e)
      | Except.ok o =>
          let selArts := match o with
            | some _ => [selArtifactName]
            | none => []
          (holArts ++ stratArts ++ selArts, none)

/-- The observable outcome of one invocation: process exit code and the
artifact files written. -/
structure MainResult where
  exitCode : ℕ
  artifacts : List String
deriving DecidableEq

/-- `main` (lines 257–276): `argv` includes the script name, so a wrong
argument count is `argv.length ≠ 2` (exit 1 before the existence check);
a missing file exits 1 before any read; `loaded = none` models a
`json.load` failure (uncaught, so the interpreter exits 1).  An uncaught
exception inside a report also makes the interpreter exit 1. -/
def visualize_main (argv : List String) (fileExists : Bool)
    (loaded : Option (List BenchmarkRecord)) : MainResult :=
  if argv.length ≠ 2 then { exitCode := 1, artifacts := [] }
  else if fileExists = false then { exitCode := 1, artifacts := [] }
  else
    match loaded with
    | none => { exitCode := 1, artifacts := [] }
    | some benchmarks =>
        match mainRun benchmarks with
        | (arts, some _) => { exitCode := 1, artifacts := arts }
        | (arts, none) => { exitCode := 0, artifacts := arts }

/-! ## Concrete example records -/

/-- A HOL-Impact record with the given lane count and all three percentiles
equal to `p95`. -/
def holRec (lane : ℤ) (p95 : ℚ) : BenchmarkRecord :=
  { benchmark := "io.redis.HolImpactBenchmark.measureLatency"
    params := { laneCount := lane, strategyName := "" }
    primaryMetric :=
      { score := 0
        scorePercentiles := [("50.0", p95), ("95.0", p95), ("99.0", p95)] } }

/-- A Strategy-Comparison record. -/
def stratRec (lane : ℤ) (sname : String) (p95 : ℚ) : BenchmarkRecord :=
  { benchmark := "io.redis.StrategyComparisonBenchmark.measureLatency"
    params := { laneCount := lane, strategyName := sname }
    primaryMetric := { score := 0, scorePercentiles := [("95.0", p95)] } }

/-- A Selection-Overhead record with the given trailing method name. -/
def ovRec (methodName : String) (score : ℚ) : BenchmarkRecord :=
  { benchmark := "io.redis.SelectionOverheadBenchmark." ++ methodName
    params := { laneCount := 0, strategyName := "" }
    primaryMetric := { score := score, scorePercentiles := [] } }

/-- The spec's HOL example: p95 values `[100, 10]` at lane counts `[1, 4]`. -/
def c1Records : List BenchmarkRecord := [holRec 1 100, holRec 4 10]

/-- The chart produced for `c1Records`. -/
def c1HolChart : HolChart :=
  { lanes := [1, 4], p50s := [100, 10], p95s := [100, 10], p99s := [100, 10]
    callouts := [90] }

/-- HOL records whose smallest lane count has p95 = 0. -/
def c2Records : List BenchmarkRecord := [holRec 1 0, holRec 4 10]

/-- A record with an empty `scorePercentiles` mapping. -/
def c4Rec : BenchmarkRecord :=
  { benchmark := "io.redis.HolImpactBenchmark.empty"
    params := { laneCount := 1, strategyName := "" }
    primaryMetric := { score := 0, scorePercentiles := [] } }

/-- A single Strategy-Comparison record. -/
def c9Records : List BenchmarkRecord := [stratRec 1 "ROUND_ROBIN" 5]

/-- The chart produced for `c9Records`. -/
def c9Chart : StratChart :=
  { lanes := [1], heights := [[5], [0], [0]], callouts := [] }

/-- A well-formed invocation's argv (`sys.argv` includes the script name). -/
def goodArgv : List String := ["scripts/visualize.py", "results.json"]

/-! ## C4: totality of `extract_percentiles` -/

/-- C4: for every record whose `primaryMetric` carries a `scorePercentiles`
mapping (possibly empty), `extract_percentiles` substitutes 0 for each of the
three fixed keys that is absent, and returns `{p50 := 0, p95 := 0, p99 := 0}`
on the empty mapping.  The function is total by construction (it is a Lean
function), matching the claim that it never fails. -/
theorem extract_percentiles_total (b : BenchmarkRecord) :
    (b.primaryMetric.scorePercentiles = [] →
      extract_percentiles b = { p50 := 0, p95 := 0, p99 := 0 })
    ∧ (dictGet? b.primaryMetric.scorePercentiles "50.0" = none →
      (extract_percentiles b).p50 = 0)
    ∧ (dictGet? b.primaryMetric.scorePercentiles "95.0" = none →
      (extract_percentiles b).p95 = 0)
    ∧ (dictGet? b.primaryMetric.scorePercentiles "99.0" = none →
      (extract_percentiles b).p99 = 0) := by
  refine ⟨?_, ?_, ?_, ?_⟩ <;> intro h <;>
    simp [extract_percentiles, dictGetD, h, dictGet?]

/-- Witness for C4: on a concrete record with an empty percentile mapping the
extractor returns all zeros. -/
theorem extract_percentiles_total_witness :
    extract_percentiles c4Rec = { p50 := 0, p95 := 0, p99 := 0 } :=
  (extract_percentiles_total c4Rec).1 rfl

/-! ## C2: the p95-improvement division is not guarded -/

/-- C2 (code bug): on an input with two lane counts whose smallest lane count
has p95 = 0, the annotation step divides by zero — the run aborts with
`ZeroDivisionError` and no artifact is produced, contradicting the claimed
guard. -/
theorem hol_division_by_zero_bug :
    plot_hol_impact c2Records = Except.error "ZeroDivisionError"
    ∧ 2 ≤ (sortedKeys (by_lane (hol_data c2Records))).length
    ∧ (series_of (by_lane (hol_data c2Records)) (fun p => p.p95)).getD 0 0 = 0
    ∧ mainRun c2Records = ([], some "ZeroDivisionError") := by
  refine ⟨?_, by decide, by decide, ?_⟩ <;>
    norm_num +decide [plot_hol_impact, hol_data, hol_improvement, by_lane,
      sortedKeys, series_of, dictSet, dictGet?, dictGetD, extract_percentiles,
      containsSub, charsContain, charsStartWith, List.insertionSort,
      List.orderedInsert, pzero, c2Records, holRec, mainRun,
      plot_strategy_comparison, strategy_data, plot_selection_overhead,
      overhead_data]

/-! ## C8: exit codes -/

/-- C8 (code bug): a wrong argument count or a missing file does exit 1 with
no artifacts, but a successfully loaded input does NOT always exit 0: the
unguarded division in the HOL-Impact annotation aborts the process with a
nonzero exit code on `c2Records`. -/
theorem main_exit_code_bug :
    visualize_main ["scripts/visualize.py"] true (some c1Records) =
      { exitCode := 1, artifacts := [] }
    ∧ visualize_main goodArgv false none = { exitCode := 1, artifacts := [] }
    ∧ visualize_main goodArgv true (some c2Records) =
      { exitCode := 1, artifacts := [] }
    ∧ (visualize_main goodArgv true (some c2Records)).exitCode ≠ 0 := by
  refine ⟨by decide, by decide, ?_, ?_⟩ <;>
    norm_num +decide [visualize_main, goodArgv, plot_hol_impact, hol_data,
      hol_improvement, by_lane, sortedKeys, series_of, dictSet, dictGet?,
      dictGetD, extract_percentiles, containsSub, charsContain,
      charsStartWith, List.insertionSort, List.orderedInsert, pzero,
      c2Records, holRec, mainRun, plot_strategy_comparison, strategy_data,
      plot_selection_overhead, overhead_data]

/-! ## C9 counterexample: a builder that renders no derived annotation -/

/-- C9 counterexample: the Strategy-Comparison builder produces its artifact
for `c9Records` yet renders zero derived annotations, refuting the claim that
every builder renders at least one whenever it produces an artifact. -/
theorem strategy_chart_without_callout :
    plot_strategy_comparison c9Records = some c9Chart
    ∧ c9Chart.callouts = [] :=
  ⟨by decide, rfl⟩

/-! ## Dictionary lemmas -/

lemma dictGet?_dictSet_self {K V : Type} [DecidableEq K]
    (m : List (K × V)) (k : K) (v : V) :
    dictGet? (dictSet m k v) k = some v := by
  induction m with
  | nil => simp [dictSet, dictGet?]
  | cons hd tl ih =>
      obtain ⟨k', v'⟩ := hd
      by_cases h : k' = k <;> simp [dictSet, dictGet?, h, ih]

lemma dictGet?_dictSet_ne {K V : Type} [DecidableEq K]
    (m : List (K × V)) (k k' : K) (v : V) (h : k' ≠ k) :
    dictGet? (dictSet m k v) k' = dictGet? m k' := by
  induction m with
  | nil => simp [dictSet, dictGet?, Ne.symm h]
  | cons hd tl ih =>
      obtain ⟨k'', v''⟩ := hd
      by_cases hk : k'' = k
      · subst hk
        simp [dictSet, dictGet?, Ne.symm h]
      · by_cases hk' : k'' = k' <;> simp [dictSet, dictGet?, hk, hk', ih, h]

lemma dictSet_keys {K V : Type} [DecidableEq K]
    (m : List (K × V)) (k : K) (v : V) :
    (dictSet m k v).map Prod.fst =
      if k ∈ m.map Prod.fst then m.map Prod.fst
      else m.map Prod.fst ++ [k] := by
  induction m with
  | nil => simp [dictSet]
  | cons hd tl ih =>
      obtain ⟨k', v'⟩ := hd
      by_cases h : k' = k
      · subst h; simp [dictSet]
      · by_cases hm : k ∈ tl.map Prod.fst <;>
          simp [dictSet, h, ih, hm, Ne.symm h]

lemma dictSet_keys_nodup {K V : Type} [DecidableEq K]
    (m : List (K × V)) (k : K) (v : V)
    (h : (m.map Prod.fst).Nodup) :
    ((dictSet m k v).map Prod.fst).Nodup := by
  rw [dictSet_keys]
  by_cases hm : k ∈ m.map Prod.fst <;> simp [hm, h, List.nodup_append]

lemma by_lane_aux_keys_nodup (l : List BenchmarkRecord) :
    ∀ acc : List (ℤ × PercentileSet), (acc.map Prod.fst).Nodup →
      ((l.foldl
        (fun m b => dictSet m b.params.laneCount (extract_percentiles b))
        acc).map Prod.fst).Nodup := by
  induction l with
  | nil => intro acc h; simpa
  | cons hd tl ih =>
      intro acc h
      exact ih _ (dictSet_keys_nodup _ _ _ h)

lemma by_lane_keys_nodup (l : List BenchmarkRecord) :
    ((by_lane l).map Prod.fst).Nodup :=
  by_lane_aux_keys_nodup l [] (by simp)

/-! ## Sortedness of the lane axis -/

lemma sortedKeys_sorted {α : Type} (m : List (ℤ × α)) :
    (sortedKeys m).Pairwise (fun a b : ℤ => a ≤ b) :=
  List.sorted_insertionSort _ _

lemma sortedKeys_perm {α : Type} (m : List (ℤ × α)) :
    (sortedKeys m).Perm (m.map Prod.fst) :=
  List.perm_insertionSort _ _

lemma sortedKeys_pairwise_lt {α : Type} (m : List (ℤ × α))
    (h : (m.map Prod.fst).Nodup) :
    (sortedKeys m).Pairwise (fun a b : ℤ => a < b) := by
  have hs : (sortedKeys m).Pairwise (fun a b : ℤ => a ≤ b) := sortedKeys_sorted m
  have hn : (sortedKeys m).Nodup := ((sortedKeys_perm m).nodup_iff).mpr h
  exact (hs.and hn).imp (fun hab => lt_of_le_of_ne hab.1 hab.2)

/-! ## C1: the HOL-Impact p95-improvement annotation -/

/-- C1: whenever the HOL-Impact builder produces a chart, its lane axis is
strictly increasing (so index 0 is the smallest lane count and index 1 the
second smallest); with fewer than two lane counts no annotation is rendered;
with at least two lane counts the rendered annotation value is
`(p95[0] − p95[1]) / p95[0] × 100`; and on the spec's example — p95 values
`[100, 10]` at lane counts `[1, 4]` — the computed improvement is 90. -/
theorem hol_improvement_spec (benchmarks : List BenchmarkRecord) (c : HolChart)
    (hc : plot_hol_impact benchmarks = Except.ok (some c)) :
    c.lanes.Pairwise (fun a b : ℤ => a < b)
    ∧ (c.lanes.length < 2 → c.callouts = [])
    ∧ (2 ≤ c.lanes.length →
        c.callouts =
          [(c.p95s.getD 0 0 - c.p95s.getD 1 0) / c.p95s.getD 0 0 * 100])
    ∧ plot_hol_impact c1Records = Except.ok (some c1HolChart)
    ∧ c1HolChart.callouts = [90] := by
  simp only [plot_hol_impact] at hc
  split at hc
  · exact absurd hc (by simp)
  · split at hc
    · exact absurd hc (by simp)
    · rename_i ann heq
      rw [Except.ok.injEq, Option.some.injEq] at hc
      subst hc
      refine ⟨?_, ?_, ?_, ?_, rfl⟩
      · exact sortedKeys_pairwise_lt _ (by_lane_keys_nodup _)
      · intro hlen
        dsimp only at hlen ⊢
        simp only [hol_improvement] at heq
        rw [if_neg (by omega)] at heq
        rw [Except.ok.injEq] at heq
        simp [← heq]
      · intro h2
        dsimp only at h2 ⊢
        simp only [hol_improvement] at heq
        rw [if_pos h2] at heq
        split at heq
        · exact absurd heq (by simp)
        · rw [Except.ok.injEq] at heq
          simp [← heq]
      · norm_num +decide [plot_hol_impact, hol_data, hol_improvement, by_lane,
          sortedKeys, series_of, dictSet, dictGet?, dictGetD,
          extract_percentiles, containsSub, charsContain, charsStartWith,
          List.insertionSort, List.orderedInsert, pzero, c1Records, holRec,
          c1HolChart]

/-- Witness for C1 at the spec's example input. -/
theorem hol_improvement_spec_witness :
    c1HolChart.lanes.Pairwise (fun a b : ℤ => a < b)
    ∧ (c1HolChart.lanes.length < 2 → c1HolChart.callouts = [])
    ∧ (2 ≤ c1HolChart.lanes.length →
        c1HolChart.callouts =
          [(c1HolChart.p95s.getD 0 0 - c1HolChart.p95s.getD 1 0) /
            c1HolChart.p95s.getD 0 0 * 100])
    ∧ plot_hol_impact c1Records = Except.ok (some c1HolChart)
    ∧ c1HolChart.callouts = [90] :=
  hol_improvement_spec c1Records c1HolChart
    (by
      norm_num +decide [plot_hol_impact, hol_data, hol_improvement, by_lane,
        sortedKeys, series_of, dictSet, dictGet?, dictGetD,
        extract_percentiles, containsSub, charsContain, charsStartWith,
        List.insertionSort, List.orderedInsert, pzero, c1Records, holRec,
        c1HolChart])

/-! ## C3: order (in)dependence of the lane grouping -/

/-- Comparison of grouped entries by lane-count key. -/
def keyLE (a b : ℤ × PercentileSet) : Prop := a.1 ≤ b.1

instance : DecidableRel keyLE := fun a b => inferInstanceAs (Decidable (a.1 ≤ b.1))

instance : IsTotal (ℤ × PercentileSet) keyLE := ⟨fun a b => Int.le_total a.1 b.1⟩

instance : IsTrans (ℤ × PercentileSet) keyLE := ⟨fun _ _ _ h h' => le_trans h h'⟩

/-- Strict comparison of grouped entries by lane-count key. -/
def keyLT (a b : ℤ × PercentileSet) : Prop := a.1 < b.1

instance : IsAntisymm (ℤ × PercentileSet) keyLT :=
  ⟨fun _ _ h h' => absurd (lt_trans h h') (lt_irrefl _)⟩

/-- The grouped HOL mapping in canonical form (entries sorted by lane count).
Python dict equality ignores insertion order, so two grouped dicts (whose
keys are unique by construction) are equal as mappings exactly when their
canonical forms are equal lists. -/
def canonGrouped (bs : List BenchmarkRecord) : List (ℤ × PercentileSet) :=
  List.insertionSort keyLE (by_lane (hol_data bs))

lemma dictSet_fresh {K V : Type} [DecidableEq K] (m : List (K × V)) (k : K)
    (v : V) (h : k ∉ m.map Prod.fst) : dictSet m k v = m ++ [(k, v)] := by
  induction m with
  | nil => simp [dictSet]
  | cons hd tl ih =>
      obtain ⟨k', v'⟩ := hd
      simp only [List.map_cons, List.mem_cons, not_or] at h
      simp [dictSet, Ne.symm h.1, ih h.2]

lemma by_lane_aux_of_nodup (l : List BenchmarkRecord) :
    ∀ acc : List (ℤ × PercentileSet),
      (acc.map Prod.fst ++ l.map (fun b => b.params.laneCount)).Nodup →
      l.foldl (fun m b => dictSet m b.params.laneCount (extract_percentiles b))
          acc
        = acc ++ l.map (fun b => (b.params.laneCount, extract_percentiles b)) := by
  induction l with
  | nil => intro acc _; simp
  | cons hd tl ih =>
      intro acc h
      have hfresh : hd.params.laneCount ∉ acc.map Prod.fst := by
        rw [List.nodup_append] at h
        exact fun hmem => h.2.2 hmem (by simp)
      rw [List.foldl_cons, dictSet_fresh _ _ _ hfresh,
        ih _ (by simpa [List.append_assoc] using h)]
      simp

lemma by_lane_of_nodup (l : List BenchmarkRecord)
    (h : (l.map (fun b => b.params.laneCount)).Nodup) :
    by_lane l = l.map (fun b => (b.params.laneCount, extract_percentiles b)) := by
  have := by_lane_aux_of_nodup l [] (by simpa using h)
  simpa [by_lane] using this

lemma sorted_keyLT {l : List (ℤ × PercentileSet)}
    (hle : l.Pairwise keyLE) (hnd : (l.map Prod.fst).Nodup) :
    l.Pairwise keyLT := by
  have hne : l.Pairwise (fun a b => a.1 ≠ b.1) := List.pairwise_map.mp hnd
  exact (hle.and hne).imp (fun hab => lt_of_le_of_ne hab.1 hab.2)

lemma canon_eq_of_perm {l₁ l₂ : List (ℤ × PercentileSet)}
    (hp : l₁.Perm l₂) (h₁ : (l₁.map Prod.fst).Nodup) :
    List.insertionSort keyLE l₁ = List.insertionSort keyLE l₂ := by
  have hperm : (List.insertionSort keyLE l₁).Perm (List.insertionSort keyLE l₂) :=
    ((List.perm_insertionSort keyLE l₁).trans hp).trans
      (List.perm_insertionSort keyLE l₂).symm
  have hnd₁ : ((List.insertionSort keyLE l₁).map Prod.fst).Nodup :=
    (((List.perm_insertionSort keyLE l₁).map Prod.fst).nodup_iff).mpr h₁
  have hnd₂ : ((List.insertionSort keyLE l₂).map Prod.fst).Nodup := by
    refine (((List.perm_insertionSort keyLE l₂).map Prod.fst).nodup_iff).mpr ?_
    exact ((hp.map Prod.fst).nodup_iff).mp h₁
  exact List.eq_of_perm_of_sorted hperm
    (sorted_keyLT (List.sorted_insertionSort keyLE l₁) hnd₁)
    (sorted_keyLT (List.sorted_insertionSort keyLE l₂) hnd₂)

/-- C3 counterexample: two records with the same lane count but different
percentiles, in the two orders.  Grouping is last-seen-wins, so the two
permutations of the same input yield different grouped mappings, refuting
order-independence for inputs with duplicated lane counts. -/
theorem hol_grouping_not_perm_invariant :
    List.Perm [holRec 1 100, holRec 1 10] [holRec 1 10, holRec 1 100]
    ∧ canonGrouped [holRec 1 100, holRec 1 10]
      ≠ canonGrouped [holRec 1 10, holRec 1 100] := by
  exact ⟨by decide, by decide⟩

/-- C3 amended: grouping is deterministic, last-seen-wins; permuting the
input preserves the grouped mapping provided the filtered records carry
pairwise-distinct lane counts. -/
theorem hol_grouping_perm_invariant (xs ys : List BenchmarkRecord)
    (hperm : xs.Perm ys)
    (hnodup : ((hol_data xs).map (fun b => b.params.laneCount)).Nodup) :
    canonGrouped xs = canonGrouped ys := by
  have hfp : (hol_data xs).Perm (hol_data ys) := hperm.filter _
  have hn' : ((hol_data ys).map (fun b => b.params.laneCount)).Nodup :=
    ((hfp.map _).nodup_iff).mp hnodup
  rw [canonGrouped, canonGrouped, by_lane_of_nodup _ hnodup,
    by_lane_of_nodup _ hn']
  refine canon_eq_of_perm (hfp.map _) ?_
  simpa [List.map_map, Function.comp] using hnodup

/-- Witness for the amended C3 on a concrete permutation pair with distinct
lane counts. -/
theorem hol_grouping_perm_invariant_witness :
    List.Perm c1Records [holRec 4 10, holRec 1 100]
    ∧ canonGrouped c1Records = canonGrouped [holRec 4 10, holRec 1 100] :=
  ⟨by decide, hol_grouping_perm_invariant _ _ (by decide) (by decide)⟩

/-! ## C5: selection-overhead values and callout -/

lemma overheads_append_single (l : List BenchmarkRecord) (b : BenchmarkRecord) :
    overheads (l ++ [b]) =
      match classify (method_of b) with
      | some label => dictSet (overheads l) label (b.primaryMetric.score * 1000)
      | none => overheads l := by
  simp [overheads, List.foldl_append]

/-- The spec's bucket example for the overhead callout. -/
def c5Buckets : List (String × ℚ) :=
  [("Baseline", 50), ("RoundRobin", 90), ("ThreadAffinity", 95), ("LeastUsed", 80)]

/-- C5: a Selection-Overhead record that classifies into a bucket is stored
(and hence displayed) as `primaryMetric.score * 1000` (ms → μs); whenever the
overhead callout is computed, the `Baseline` bucket exists with a nonzero
value, the absolute overhead is `max-non-Baseline − Baseline`, and the
percentage is `overhead / max-non-Baseline × 100`; on the spec's example
buckets the callout is `(45, 45/95×100)`. -/
theorem selection_overhead_spec (xs : List BenchmarkRecord)
    (b : BenchmarkRecord) (lbl : String) (oh pct : ℚ)
    (hb : containsSub "SelectionOverheadBenchmark" b.benchmark = true)
    (hcl : classify (method_of b) = some lbl)
    (hann : overhead_calc (overheads (overhead_data xs)) =
      Except.ok (some (oh, pct))) :
    dictGet? (overheads (overhead_data (xs ++ [b]))) lbl
      = some (b.primaryMetric.score * 1000)
    ∧ dictGet? (overheads (overhead_data xs)) "Baseline" ≠ none
    ∧ dictGetD (overheads (overhead_data xs)) "Baseline" 0 ≠ 0
    ∧ oh = pymax (nonBaselineValues (overheads (overhead_data xs)))
        - dictGetD (overheads (overhead_data xs)) "Baseline" 0
    ∧ pct = oh / pymax (nonBaselineValues (overheads (overhead_data xs))) * 100
    ∧ overhead_calc c5Buckets = Except.ok (some (45, 45 / 95 * 100)) := by
  have hdata : overhead_data (xs ++ [b]) = overhead_data xs ++ [b] := by
    simp [overhead_data, List.filter_append, hb]
  have hstore : dictGet? (overheads (overhead_data (xs ++ [b]))) lbl
      = some (b.primaryMetric.score * 1000) := by
    rw [hdata, overheads_append_single, hcl]
    exact dictGet?_dictSet_self _ _ _
  simp only [overhead_calc] at hann
  split at hann
  · split at hann
    · split at hann
      · exact absurd hann (by simp)
      · rename_i h2 hpos hmax
        rw [Except.ok.injEq, Option.some.injEq, Prod.mk.injEq] at hann
        refine ⟨hstore, ?_, ne_of_gt hpos, hann.1.symm, ?_, ?_⟩
        · intro hnone
          rw [dictGetD, hnone] at hpos
          exact absurd hpos (by simp)
        · rw [← hann.1]
          exact hann.2.symm
        · norm_num +decide [overhead_calc, c5Buckets, dictGetD, dictGet?,
            nonBaselineValues, pymax]
    · exact absurd hann (by simp)
  · exact absurd hann (by simp)

/-- Concrete prior records for the C5 witness. -/
def c5Xs : List BenchmarkRecord :=
  [ovRec "baselinePing" 50, ovRec "roundRobinPing" 95]

/-- Concrete appended record for the C5 witness. -/
def c5B : BenchmarkRecord := ovRec "leastUsedPing" 80

/-- Witness for C5 at a concrete input (buckets Baseline ↦ 50000 μs,
RoundRobin ↦ 95000 μs, then LeastUsed appended). -/
theorem selection_overhead_spec_witness :
    dictGet? (overheads (overhead_data (c5Xs ++ [c5B]))) "LeastUsed"
      = some (c5B.primaryMetric.score * 1000)
    ∧ dictGet? (overheads (overhead_data c5Xs)) "Baseline" ≠ none
    ∧ dictGetD (overheads (overhead_data c5Xs)) "Baseline" 0 ≠ 0
    ∧ (45000 : ℚ) = pymax (nonBaselineValues (overheads (overhead_data c5Xs)))
        - dictGetD (overheads (overhead_data c5Xs)) "Baseline" 0
    ∧ (45000 / 95000 * 100 : ℚ)
      = 45000 / pymax (nonBaselineValues (overheads (overhead_data c5Xs))) * 100
    ∧ overhead_calc c5Buckets = Except.ok (some (45, 45 / 95 * 100)) :=
  selection_overhead_spec c5Xs c5B "LeastUsed" 45000 (45000 / 95000 * 100)
    (by decide) (by decide)
    (by norm_num +decide [overhead_calc, overheads, overhead_data, c5Xs, ovRec,
      containsSub, charsContain, charsStartWith, method_of, pySplitDot,
      splitDotAux, classify, dictSet, dictGet?, dictGetD, nonBaselineValues,
      pymax])

/-! ## C6: unrecognized strategy labels contribute no bar -/

lemma dictGet2_insertLS (m : List (ℤ × List (String × PercentileSet)))
    (b : BenchmarkRecord) (lc : ℤ) (s : String) :
    dictGet2 (insertLaneStrategy m b) lc s =
      if lc = b.params.laneCount ∧ s = b.params.strategyName
      then some (extract_percentiles b)
      else dictGet2 m lc s := by
  by_cases hlc : lc = b.params.laneCount
  · subst hlc
    by_cases hs : s = b.params.strategyName
    · subst hs
      rcases hm : dictGet? m b.params.laneCount with _ | inner
      · simp [insertLaneStrategy, dictGet2, hm, dictGet?_dictSet_self,
          dictGet?]
      · simp [insertLaneStrategy, dictGet2, hm, dictGet?_dictSet_self]
    · rcases hm : dictGet? m b.params.laneCount with _ | inner
      · simp [insertLaneStrategy, dictGet2, hm, dictGet?_dictSet_self,
          dictGet?, hs, Ne.symm hs]
      · simp [insertLaneStrategy, dictGet2, hm, dictGet?_dictSet_self,
          dictGet?_dictSet_ne _ _ _ _ hs, hs]
  · rcases hm : dictGet? m b.params.laneCount with _ | inner <;>
      simp [insertLaneStrategy, dictGet2, hm,
        dictGet?_dictSet_ne _ _ _ _ hlc, hlc]

lemma dictGet2_insertLS_ne (m : List (ℤ × List (String × PercentileSet)))
    (b : BenchmarkRecord) (lc : ℤ) (s : String)
    (hs : s ≠ b.params.strategyName) :
    dictGet2 (insertLaneStrategy m b) lc s = dictGet2 m lc s := by
  rw [dictGet2_insertLS, if_neg (fun hc => hs hc.2)]

lemma foldl_insertLS_congr (l : List BenchmarkRecord) :
    ∀ (acc acc' : List (ℤ × List (String × PercentileSet))) (s : String),
      (∀ lc, dictGet2 acc lc s = dictGet2 acc' lc s) →
      ∀ lc, dictGet2 (l.foldl insertLaneStrategy acc) lc s
        = dictGet2 (l.foldl insertLaneStrategy acc') lc s := by
  induction l with
  | nil => intro acc acc' s h lc; simpa using h lc
  | cons hd tl ih =>
      intro acc acc' s h lc
      refine ih _ _ s (fun lc' => ?_) lc
      rw [dictGet2_insertLS, dictGet2_insertLS]
      by_cases hc : lc' = hd.params.laneCount ∧ s = hd.params.strategyName
      · rw [if_pos hc, if_pos hc]
      · rw [if_neg hc, if_neg hc]
        exact h lc'

/-- C6: a record whose `strategyName` is outside the fixed recognized set
contributes to no drawn bar: for every lane count and every recognized
strategy, the bar height with that record spliced into the input equals the
bar height without it.  (Its exclusion raises no error: the grouping and the
height lookup are total functions.) -/
theorem unknown_strategy_no_bar (xs ys : List BenchmarkRecord)
    (r : BenchmarkRecord) (lc : ℤ) (s : String)
    (hmem : s ∈ strategies)
    (hunk : r.params.strategyName ∉ strategies) :
    bar_p95 (by_lane_strategy (strategy_data (xs ++ r :: ys))) lc s
      = bar_p95 (by_lane_strategy (strategy_data (xs ++ ys))) lc s := by
  have hs : s ≠ r.params.strategyName := fun h => hunk (h ▸ hmem)
  by_cases hr : containsSub "StrategyComparisonBenchmark" r.benchmark = true
  · have hdata : strategy_data (xs ++ r :: ys)
        = strategy_data xs ++ r :: strategy_data ys := by
      simp [strategy_data, List.filter_append, hr]
    have hdata' : strategy_data (xs ++ ys)
        = strategy_data xs ++ strategy_data ys := by
      simp [strategy_data, List.filter_append]
    rw [hdata, hdata']
    unfold by_lane_strategy
    rw [List.foldl_append, List.foldl_append, List.foldl_cons]
    have hbase : ∀ lc',
        dictGet2 (insertLaneStrategy
          ((strategy_data xs).foldl insertLaneStrategy []) r) lc' s
        = dictGet2 ((strategy_data xs).foldl insertLaneStrategy []) lc' s :=
      fun lc' => dictGet2_insertLS_ne _ _ _ _ hs
    have hget := foldl_insertLS_congr (strategy_data ys) _ _ s hbase lc
    simp [bar_p95, hget]
  · have hsame : strategy_data (xs ++ r :: ys) = strategy_data (xs ++ ys) := by
      simp [strategy_data, List.filter_append,
        Bool.not_eq_true _ ▸ hr]
    rw [hsame]

/-- A Strategy-Comparison record with an unrecognized strategy label. -/
def c6Unknown : BenchmarkRecord := stratRec 4 "UNKNOWN" 7

/-- Witness for C6: splicing the `UNKNOWN` record into a concrete input
leaves every recognized bar height unchanged. -/
theorem unknown_strategy_no_bar_witness :
    "ROUND_ROBIN" ∈ strategies
    ∧ c6Unknown.params.strategyName ∉ strategies
    ∧ bar_p95 (by_lane_strategy
        (strategy_data ([stratRec 1 "ROUND_ROBIN" 5] ++ c6Unknown :: [])))
        4 "ROUND_ROBIN"
      = bar_p95 (by_lane_strategy
        (strategy_data ([stratRec 1 "ROUND_ROBIN" 5] ++ []))) 4 "ROUND_ROBIN" :=
  ⟨by decide, by decide,
    unknown_strategy_no_bar [stratRec 1 "ROUND_ROBIN" 5] [] c6Unknown 4
      "ROUND_ROBIN" (by decide) (by decide)⟩

/-! ## C10: a lane of unrecognized strategies still forms a cluster -/

lemma dictSet_keys_mem {K V : Type} [DecidableEq K] (m : List (K × V))
    (k : K) (v : V) : k ∈ (dictSet m k v).map Prod.fst := by
  rw [dictSet_keys]
  by_cases hm : k ∈ m.map Prod.fst <;> simp [hm]

lemma insertLS_keys_mem (m : List (ℤ × List (String × PercentileSet)))
    (b : BenchmarkRecord) :
    b.params.laneCount ∈ (insertLaneStrategy m b).map Prod.fst := by
  unfold insertLaneStrategy
  rcases hm : dictGet? m b.params.laneCount with _ | inner <;>
    exact dictSet_keys_mem _ _ _

lemma insertLS_keys_mono (m : List (ℤ × List (String × PercentileSet)))
    (b : BenchmarkRecord) (k : ℤ) (h : k ∈ m.map Prod.fst) :
    k ∈ (insertLaneStrategy m b).map Prod.fst := by
  unfold insertLaneStrategy
  rcases hm : dictGet? m b.params.laneCount with _ | inner <;>
    · rw [dictSet_keys]
      by_cases hk : b.params.laneCount ∈ m.map Prod.fst <;> simp [hk, h]

lemma foldl_insertLS_keys_mono (l : List BenchmarkRecord) :
    ∀ (acc : List (ℤ × List (String × PercentileSet))) (k : ℤ),
      k ∈ acc.map Prod.fst →
      k ∈ ((l.foldl insertLaneStrategy acc).map Prod.fst) := by
  induction l with
  | nil => intro acc k h; simpa using h
  | cons hd tl ih => intro acc k h; exact ih _ _ (insertLS_keys_mono _ _ _ h)

lemma foldl_insertLS_mem_lane (l : List BenchmarkRecord) :
    ∀ (acc : List (ℤ × List (String × PercentileSet))) (b : BenchmarkRecord),
      b ∈ l →
      b.params.laneCount ∈ ((l.foldl insertLaneStrategy acc).map Prod.fst) := by
  induction l with
  | nil => intro acc b h; simp at h
  | cons hd tl ih =>
      intro acc b h
      rcases List.mem_cons.mp h with rfl | h'
      · exact foldl_insertLS_keys_mono tl _ _ (insertLS_keys_mem _ _)
      · exact ih _ _ h'

lemma mem_sortedKeys {α : Type} (m : List (ℤ × α)) (k : ℤ) :
    k ∈ sortedKeys m ↔ k ∈ m.map Prod.fst :=
  (sortedKeys_perm m).mem_iff

lemma foldl_insertLS_get2_of_none (l : List BenchmarkRecord) :
    ∀ (acc : List (ℤ × List (String × PercentileSet))) (lc : ℤ) (s : String),
      (∀ b ∈ l, ¬(b.params.laneCount = lc ∧ b.params.strategyName = s)) →
      dictGet2 (l.foldl insertLaneStrategy acc) lc s = dictGet2 acc lc s := by
  induction l with
  | nil => intro acc lc s _; rfl
  | cons hd tl ih =>
      intro acc lc s h
      rw [List.foldl_cons,
        ih _ _ _ (fun b hb => h b (List.mem_cons_of_mem _ hb)),
        dictGet2_insertLS, if_neg ?_]
      intro hcond
      exact h hd (List.mem_cons_self _ _) ⟨hcond.1.symm, hcond.2.symm⟩

/-- C10: a record of the Strategy-Comparison experiment whose lane count is
covered only by unrecognized strategy labels still contributes its lane count
to the chart's x-axis clusters, and each of the three recognized strategies
is drawn at that lane count as a zero-height bar (the `.get` default). -/
theorem unknown_strategy_lane_cluster (bs : List BenchmarkRecord)
    (r : BenchmarkRecord) (c : StratChart)
    (hr : r ∈ strategy_data bs)
    (hall : ∀ b ∈ strategy_data bs,
      b.params.laneCount = r.params.laneCount →
      b.params.strategyName ∉ strategies)
    (hc : plot_strategy_comparison bs = some c) :
    r.params.laneCount ∈ c.lanes
    ∧ c.heights = strategies.map
        (fun s => c.lanes.map
          (fun lc => bar_p95 (by_lane_strategy (strategy_data bs)) lc s))
    ∧ bar_p95 (by_lane_strategy (strategy_data bs)) r.params.laneCount
        "ROUND_ROBIN" = 0
    ∧ bar_p95 (by_lane_strategy (strategy_data bs)) r.params.laneCount
        "THREAD_AFFINITY" = 0
    ∧ bar_p95 (by_lane_strategy (strategy_data bs)) r.params.laneCount
        "LEAST_USED" = 0 := by
  have hzero : ∀ s, s ∈ strategies →
      bar_p95 (by_lane_strategy (strategy_data bs)) r.params.laneCount s
        = 0 := by
    intro s hsmem
    have hnone : dictGet2 (by_lane_strategy (strategy_data bs))
        r.params.laneCount s = none := by
      rw [by_lane_strategy, foldl_insertLS_get2_of_none _ _ _ _ ?_]
      · rfl
      · intro b hb hcond
        exact (hall b hb hcond.1) (by rw [hcond.2]; exact hsmem)
    simp [bar_p95, hnone]
  simp only [plot_strategy_comparison] at hc
  split at hc
  · exact absurd hc (by simp)
  · rw [Option.some.injEq] at hc
    subst hc
    refine ⟨?_, rfl, ?_, ?_, ?_⟩
    · dsimp only
      exact (mem_sortedKeys _ _).mpr
        (foldl_insertLS_mem_lane (strategy_data bs) [] r hr)
    · exact hzero _ (by decide)
    · exact hzero _ (by decide)
    · exact hzero _ (by decide)

/-- The chart drawn for the single `UNKNOWN` record. -/
def c10Chart : StratChart :=
  { lanes := [4], heights := [[0], [0], [0]], callouts := [] }

/-- Witness for C10 on a concrete input consisting of one record with an
unrecognized strategy label. -/
theorem unknown_strategy_lane_cluster_witness :
    c6Unknown.params.laneCount ∈ c10Chart.lanes
    ∧ c10Chart.heights = strategies.map
        (fun s => c10Chart.lanes.map
          (fun lc => bar_p95 (by_lane_strategy (strategy_data [c6Unknown])) lc s))
    ∧ bar_p95 (by_lane_strategy (strategy_data [c6Unknown]))
        c6Unknown.params.laneCount "ROUND_ROBIN" = 0
    ∧ bar_p95 (by_lane_strategy (strategy_data [c6Unknown]))
        c6Unknown.params.laneCount "THREAD_AFFINITY" = 0
    ∧ bar_p95 (by_lane_strategy (strategy_data [c6Unknown]))
        c6Unknown.params.laneCount "LEAST_USED" = 0 :=
  unknown_strategy_lane_cluster [c6Unknown] c6Unknown c10Chart
    (by decide) (by decide) (by decide)

/-! ## C7: soft-skips and per-marker artifacts -/

/-- A Selection-Overhead record whose method name matches no bucket. -/
def c7Odd : BenchmarkRecord := ovRec "unmatchedMethod" 50

/-- C7 counterexample: an input whose records all carry the
Selection-Overhead marker (and no other marker) can produce ZERO artifacts:
every method name fails bucket classification, the report soft-skips at the
empty-`overheads` check, and no report writes an artifact — refuting
"exactly one artifact" for a one-marker input. -/
theorem one_marker_zero_artifacts :
    containsSub "SelectionOverheadBenchmark" c7Odd.benchmark = true
    ∧ containsSub "HolImpactBenchmark" c7Odd.benchmark = false
    ∧ containsSub "StrategyComparisonBenchmark" c7Odd.benchmark = false
    ∧ mainRun [c7Odd] = ([], none) :=
  ⟨by decide, by decide, by decide, by decide⟩

/-- C7 amended: a report whose filter yields zero records soft-skips — it
produces no artifact and raises no error — and the soft-skips are
independent: with any two reports' filters empty, the remaining report still
runs and, provided its own chart step completes (a nonempty bucket dict for
Selection-Overhead; no annotation fault for HOL-Impact or
Selection-Overhead), the run writes exactly that report's one artifact. -/
theorem soft_skip_spec (bs : List BenchmarkRecord) :
    (hol_data bs = [] → plot_hol_impact bs = Except.ok none)
    ∧ (strategy_data bs = [] → plot_strategy_comparison bs = none)
    ∧ (overhead_data bs = [] → plot_selection_overhead bs = Except.ok none)
    ∧ (hol_data bs = [] → strategy_data bs = [] →
        overheads (overhead_data bs) ≠ [] → (mainRun bs).2 = none →
        (mainRun bs).1 = [selArtifactName])
    ∧ (hol_data bs = [] → overhead_data bs = [] → strategy_data bs ≠ [] →
        mainRun bs = ([stratArtifactName], none))
    ∧ (strategy_data bs = [] → overhead_data bs = [] → hol_data bs ≠ [] →
        (mainRun bs).2 = none → (mainRun bs).1 = [holArtifactName]) := by
  refine ⟨?_, ?_, ?_, ?_, ?_, ?_⟩
  · intro h; simp [plot_hol_impact, h]
  · intro h; simp [plot_strategy_comparison, h]
  · intro h; simp [plot_selection_overhead, h]
  · intro h1 h2 hov herr
    have hh : plot_hol_impact bs = Except.ok none := by
      simp [plot_hol_impact, h1]
    have hst : plot_strategy_comparison bs = none := by
      simp [plot_strategy_comparison, h2]
    have hdata : overhead_data bs ≠ [] := by
      intro h0; exact hov (by simp [overheads, h0])
    simp only [mainRun, hh, hst] at herr ⊢
    rcases hsel : plot_selection_overhead bs with e | o
    · rw [hsel] at herr; simp at herr
    · rcases o with _ | c
      · exfalso
        simp only [plot_selection_overhead] at hsel
        rw [if_neg hdata, if_neg hov] at hsel
        split at hsel
        · exact absurd hsel (by simp)
        · exact absurd hsel (by simp)
      · simp
  · intro h1 h3 hst'
    have hh : plot_hol_impact bs = Except.ok none := by
      simp [plot_hol_impact, h1]
    have hsel : plot_selection_overhead bs = Except.ok none := by
      simp [plot_selection_overhead, h3]
    simp [mainRun, hh, hsel, plot_strategy_comparison, hst']
  · intro h2 h3 hhol herr
    have hst : plot_strategy_comparison bs = none := by
      simp [plot_strategy_comparison, h2]
    have hsel : plot_selection_overhead bs = Except.ok none := by
      simp [plot_selection_overhead, h3]
    simp only [mainRun, hst, hsel] at herr ⊢
    rcases hhc : plot_hol_impact bs with e | h
    · rw [hhc] at herr; simp at herr
    · rcases h with _ | c
      · exfalso
        simp only [plot_hol_impact] at hhc
        rw [if_neg hhol] at hhc
        split at hhc
        · exact absurd hhc (by simp)
        · exact absurd hhc (by simp)
      · simp

/-- Witness for the amended C7: a strategy-only input yields exactly the
strategy artifact, and the two empty reports soft-skip without error. -/
theorem soft_skip_spec_witness :
    (hol_data c9Records = [] → plot_hol_impact c9Records = Except.ok none)
    ∧ (strategy_data c9Records = [] →
        plot_strategy_comparison c9Records = none)
    ∧ (overhead_data c9Records = [] →
        plot_selection_overhead c9Records = Except.ok none)
    ∧ (hol_data c9Records = [] → strategy_data c9Records = [] →
        overheads (overhead_data c9Records) ≠ [] →
        (mainRun c9Records).2 = none →
        (mainRun c9Records).1 = [selArtifactName])
    ∧ (hol_data c9Records = [] → overhead_data c9Records = [] →
        strategy_data c9Records ≠ [] →
        mainRun c9Records = ([stratArtifactName], none))
    ∧ (strategy_data c9Records = [] → overhead_data c9Records = [] →
        hol_data c9Records ≠ [] → (mainRun c9Records).2 = none →
        (mainRun c9Records).1 = [holArtifactName]) :=
  soft_skip_spec c9Records

/-! ## C9 amended: which builders render derived annotations -/

/-- C9 amended: whenever artifacts are produced, the HOL-Impact builder
renders its improvement callout exactly when at least two lane counts are
present, the Strategy-Comparison builder renders no derived callout at all,
and the Selection-Overhead builder always renders at least one per-bar value
label (its bucket values are nonempty whenever its artifact exists). -/
theorem builder_callouts (bs : List BenchmarkRecord) (hc : HolChart)
    (stc : StratChart) (sc : SelChart)
    (hh : plot_hol_impact bs = Except.ok (some hc))
    (hst : plot_strategy_comparison bs = some stc)
    (hs : plot_selection_overhead bs = Except.ok (some sc)) :
    (2 ≤ hc.lanes.length → hc.callouts ≠ [])
    ∧ (hc.lanes.length < 2 → hc.callouts = [])
    ∧ stc.callouts = []
    ∧ sc.values ≠ [] := by
  simp only [plot_hol_impact] at hh
  split at hh
  · exact absurd hh (by simp)
  · split at hh
    · exact absurd hh (by simp)
    · rename_i ann heq
      rw [Except.ok.injEq, Option.some.injEq] at hh
      subst hh
      simp only [plot_strategy_comparison] at hst
      split at hst
      · exact absurd hst (by simp)
      · rw [Option.some.injEq] at hst
        subst hst
        simp only [plot_selection_overhead] at hs
        split at hs
        · exact absurd hs (by simp)
        · split at hs
          · exact absurd hs (by simp)
          · rename_i hdata hov
            split at hs
            · exact absurd hs (by simp)
            · rename_i ann2 heq2
              rw [Except.ok.injEq, Option.some.injEq] at hs
              subst hs
              refine ⟨?_, ?_, rfl, ?_⟩
              · intro h2
                dsimp only at h2 ⊢
                simp only [hol_improvement] at heq
                rw [if_pos h2] at heq
                split at heq
                · exact absurd heq (by simp)
                · rw [Except.ok.injEq] at heq
                  simp [← heq]
              · intro hlen
                dsimp only at hlen ⊢
                simp only [hol_improvement] at heq
                rw [if_neg (by omega)] at heq
                rw [Except.ok.injEq] at heq
                simp [← heq]
              · dsimp only
                intro hx
                exact hov (by simpa using hx)

/-- A concrete input containing records of all three experiments. -/
def c9AllRecords : List BenchmarkRecord :=
  [holRec 1 100, holRec 4 10, stratRec 1 "ROUND_ROBIN" 5,
    ovRec "baselinePing" 50, ovRec "roundRobinPing" 95]

/-- The Selection-Overhead chart drawn for `c9AllRecords`. -/
def c9SelChart : SelChart :=
  { labels := ["Baseline", "RoundRobin"], values := [50000, 95000]
    overheadCallout := some (45000, 900 / 19) }

/-- Witness for the amended C9 on an input producing all three artifacts. -/
theorem builder_callouts_witness :
    (2 ≤ c1HolChart.lanes.length → c1HolChart.callouts ≠ [])
    ∧ (c1HolChart.lanes.length < 2 → c1HolChart.callouts = [])
    ∧ c9Chart.callouts = []
    ∧ c9SelChart.values ≠ [] :=
  builder_callouts c9AllRecords c1HolChart c9Chart c9SelChart
    (by norm_num +decide [plot_hol_impact, hol_data, hol_improvement, by_lane,
      sortedKeys, series_of, dictSet, dictGet?, dictGetD, extract_percentiles,
      containsSub, charsContain, charsStartWith, List.insertionSort,
      List.orderedInsert, pzero, c9AllRecords, holRec, stratRec, ovRec,
      c1HolChart])
    (by decide)
    (by norm_num +decide [plot_selection_overhead, overhead_data, overheads,
      overhead_calc, method_of, pySplitDot, splitDotAux, classify, dictSet,
      dictGet?, dictGetD, nonBaselineValues, pymax, containsSub, charsContain,
      charsStartWith, c9AllRecords, holRec, stratRec, ovRec, c9SelChart])
